import Mathlib

/-!
Verification of the Scan2Score evaluation and plagiarism decision engine.

Shallow embedding of `src/ai_evaluator.py` and `src/plagiarism_detector.py`.
Python numbers (ints and floats) are modelled as `ℤ`/`ℕ`/`ℚ` with exact
arithmetic; `int(x)` on a nonnegative float is truncation, modelled by the
floor on `ℚ` (toward-zero truncation in general).  Network calls are modelled
by their outcomes (`Except` values); timestamps are omitted.
-/

namespace Scan2Score

/-! ## Plagiarism aggregator decision core
(`plagiarism_detector.py`, `comprehensive_plagiarism_check`, lines 522-563)

The three inputs are the signals extracted from the detector results:
`ai_probability`, `similarity_percentage`, `pattern_suspicion`. -/

/-- The `confidence_factors` list built by `comprehensive_plagiarism_check`
(lines 523-547): one bucketed contribution per signal, appended in order. -/
def confidence_factors (ai_probability similarity_percentage pattern_suspicion : ℚ) :
    List ℚ :=
  [ if ai_probability > 7/10 then 9/10
    else if ai_probability > 5/10 then 7/10
    else 3/10,
    if similarity_percentage > 30 then 9/10
    else if similarity_percentage > 15 then 7/10
    else 3/10,
    if pattern_suspicion > 6/10 then 8/10
    else if pattern_suspicion > 3/10 then 6/10
    else 4/10 ]

/-- `overall_confidence = sum(confidence_factors) / len(confidence_factors)`
(line 549). -/
def overall_confidence (ai_probability similarity_percentage pattern_suspicion : ℚ) :
    ℚ :=
  (confidence_factors ai_probability similarity_percentage pattern_suspicion).sum /
    (confidence_factors ai_probability similarity_percentage pattern_suspicion).length

/-- The `is_plagiarized` verdict (lines 552-556). -/
def is_plagiarized (ai_probability similarity_percentage pattern_suspicion : ℚ) :
    Bool :=
  ai_probability > 7/10 || similarity_percentage > 25 || pattern_suspicion > 6/10

/-- The `detection_method` label (lines 559-563). -/
def detection_method (ai_probability similarity_percentage pattern_suspicion : ℚ) :
    String :=
  if ai_probability > similarity_percentage ∧ ai_probability > pattern_suspicion * 100 then
    "ai_detection"
  else if similarity_percentage > pattern_suspicion * 100 then
    "traditional_plagiarism"
  else
    "pattern_based"

/-! ## Custom rubric generation
(`ai_evaluator.py`, `create_custom_rubric`, lines 425-494) -/

/-- Python `int(q)` for a rational: truncation toward zero. -/
def pyInt (q : ℚ) : ℤ :=
  if 0 ≤ q then ⌊q⌋ else ⌈q⌉

/-- Python `str.lower()` on ASCII text. -/
def pyLower (s : String) : String :=
  String.mk (s.data.map Char.toLower)

structure PerformanceLevel where
  name : String
  points : ℤ
  description : String
deriving DecidableEq, Repr

structure Criterion where
  name : String
  description : String
  max_points : ℤ
  weight : ℚ
  performance_levels : List PerformanceLevel
deriving DecidableEq, Repr

structure Rubric where
  subject : String
  question_type : String
  total_points : ℤ
  criteria : List Criterion
deriving DecidableEq, Repr

structure CriterionTemplate where
  name : String
  weight : ℚ
  description : String
deriving DecidableEq, Repr

/-- The `'essay'` entry of `criteria_templates` (lines 445-450). -/
def essay_template : List CriterionTemplate :=
  [ ⟨"Content Knowledge", 35/100, "Accuracy and depth of subject matter understanding"⟩,
    ⟨"Organization & Structure", 25/100, "Logical flow, clear introduction, body, and conclusion"⟩,
    ⟨"Critical Analysis", 25/100, "Quality of reasoning, evidence use, and original insights"⟩,
    ⟨"Language & Mechanics", 15/100, "Grammar, vocabulary, clarity of expression"⟩ ]

/-- The `'short_answer'` entry of `criteria_templates` (lines 451-456). -/
def short_answer_template : List CriterionTemplate :=
  [ ⟨"Accuracy", 4/10, "Correctness of factual information"⟩,
    ⟨"Completeness", 3/10, "Coverage of all required elements"⟩,
    ⟨"Clarity", 2/10, "Clear and concise communication"⟩,
    ⟨"Examples/Evidence", 1/10, "Use of relevant examples or supporting evidence"⟩ ]

/-- The `'analysis'` entry of `criteria_templates` (lines 457-462). -/
def analysis_template : List CriterionTemplate :=
  [ ⟨"Understanding", 3/10, "Demonstrates clear understanding of the topic"⟩,
    ⟨"Analysis Quality", 35/100, "Depth and sophistication of analytical thinking"⟩,
    ⟨"Evidence & Support", 25/100, "Use of relevant evidence to support arguments"⟩,
    ⟨"Synthesis", 1/10, "Ability to connect ideas and draw conclusions"⟩ ]

/-- `criteria_templates.get(question_type.lower(), criteria_templates['short_answer'])`
(line 466): the dictionary lookup with the short-answer default. -/
def criteria_templates (question_type : String) : List CriterionTemplate :=
  if pyLower question_type = "essay" then essay_template
  else if pyLower question_type = "analysis" then analysis_template
  else short_answer_template

/-- One generated criterion (loop body, lines 470-485):
`criterion_points = int(max_points * weight)` and the five synthesized
performance levels. -/
def make_criterion (max_points : ℤ) (t : CriterionTemplate) : Criterion :=
  let criterion_points : ℤ := pyInt ((max_points : ℚ) * t.weight)
  { name := t.name
    description := t.description
    max_points := criterion_points
    weight := t.weight
    performance_levels :=
      [ ⟨"Excellent", criterion_points, "Exceeds expectations"⟩,
        ⟨"Good", pyInt ((criterion_points : ℚ) * (8/10)), "Meets expectations"⟩,
        ⟨"Satisfactory", pyInt ((criterion_points : ℚ) * (6/10)), "Partially meets expectations"⟩,
        ⟨"Needs Improvement", pyInt ((criterion_points : ℚ) * (4/10)), "Below expectations"⟩,
        ⟨"Unsatisfactory", 0, "Does not meet expectations"⟩ ] }

/-- `create_custom_rubric` (lines 425-494); the `created_at` timestamp and
`version` bookkeeping fields are omitted from the model. -/
def create_custom_rubric (subject question_type : String)
    (max_points : ℤ) (criteria_count : ℕ) : Rubric :=
  let template := criteria_templates question_type
  { subject := subject
    question_type := question_type
    total_points := max_points
    criteria := (template.take criteria_count).map (make_criterion max_points) }

/-! ## JSON values and a model of `json.loads`

Evaluation results are Python dictionaries built by `json.loads` and mutated
by item assignment; they are modelled as `Json` values, with objects as
association lists (insertion order preserved, duplicate keys overwritten as
in a Python `dict`). -/

/-- JSON values.  A number is stored exactly as a mantissa and a decimal
scale: `Json.num m s` denotes the rational `m / 10^s` (an integer literal has
scale `0`). -/
inductive Json where
  | null : Json
  | bool : Bool → Json
  | num : ℤ → ℕ → Json
  | str : String → Json
  | arr : List Json → Json
  | obj : List (String × Json) → Json

/-- Python `dict` item assignment `d[k] = v` on an association list:
overwrite in place if the key is present, else append. -/
def setPair : List (String × Json) → String → Json → List (String × Json)
  | [], k, v => [(k, v)]
  | (k', v') :: rest, k, v =>
    if k' = k then (k, v) :: rest else (k', v') :: setPair rest k v

/-- Dictionary lookup `d[k]` (`none` when absent or not a dictionary). -/
def Json.getField : Json → String → Option Json
  | .obj kvs, k => kvs.lookup k
  | _, _ => none

/-- Dictionary item assignment `d[k] = v`; identity on non-objects
(in Python that would be a `TypeError`, which never occurs in the
modelled code paths). -/
def Json.setField : Json → String → Json → Json
  | .obj kvs, k, v => .obj (setPair kvs k v)
  | j, _, _ => j

/-- JSON whitespace (the characters `json.loads` skips between tokens). -/
def jsonWS (c : Char) : Bool :=
  c = ' ' || c = '\t' || c = '\n' || c = '\r'

def skipWS (cs : List Char) : List Char :=
  cs.dropWhile jsonWS

/-- The opening curly brace character. -/
def lbrace : Char := Char.ofNat 123

/-- The closing curly brace character. -/
def rbrace : Char := Char.ofNat 125

def hexVal (c : Char) : Option ℕ :=
  if '0' ≤ c ∧ c ≤ '9' then some (c.toNat - 48)
  else if 'a' ≤ c ∧ c ≤ 'f' then some (c.toNat - 87)
  else if 'A' ≤ c ∧ c ≤ 'F' then some (c.toNat - 55)
  else none

/-- Parse the body of a JSON string literal (the opening quote already
consumed), handling the standard escapes.  `\uXXXX` escapes are decoded via
`Char.ofNat` (lone surrogates, which Python would keep, fall to the null
character — irrelevant to the modelled code paths).  Fuel is the remaining
input length; every step consumes at least one character. -/
def parseStringAux : ℕ → List Char → List Char → Option (String × List Char)
  | 0, _, _ => none
  | _, [], _ => none
  | fuel+1, c :: rest, acc =>
    if c = '"' then some (String.mk acc.reverse, rest)
    else if c = '\\' then
      match rest with
      | [] => none
      | e :: rest2 =>
        if e = '"' then parseStringAux fuel rest2 ('"' :: acc)
        else if e = '\\' then parseStringAux fuel rest2 ('\\' :: acc)
        else if e = '/' then parseStringAux fuel rest2 ('/' :: acc)
        else if e = 'b' then parseStringAux fuel rest2 ('\x08' :: acc)
        else if e = 'f' then parseStringAux fuel rest2 ('\x0c' :: acc)
        else if e = 'n' then parseStringAux fuel rest2 ('\n' :: acc)
        else if e = 'r' then parseStringAux fuel rest2 ('\r' :: acc)
        else if e = 't' then parseStringAux fuel rest2 ('\t' :: acc)
        else if e = 'u' then
          match rest2 with
          | h1 :: h2 :: h3 :: h4 :: rest3 =>
            match hexVal h1, hexVal h2, hexVal h3, hexVal h4 with
            | some a, some b, some c2, some d =>
              parseStringAux fuel rest3
                (Char.ofNat (((a * 16 + b) * 16 + c2) * 16 + d) :: acc)
            | _, _, _, _ => none
          | _ => none
        else none
    else if c.toNat < 32 then none
    else parseStringAux fuel rest (c :: acc)

def splitDigits (cs : List Char) : List Char × List Char :=
  (cs.takeWhile Char.isDigit, cs.dropWhile Char.isDigit)

def digitsToNat (ds : List Char) : ℕ :=
  ds.foldl (fun n c => n * 10 + (c.toNat - 48)) 0

/-- Parse the optional exponent part of a JSON number (`[eE][+-]?[0-9]+`);
returns exponent `0` when absent. -/
def parseExponent (cs : List Char) : Option (ℤ × List Char) :=
  if cs.head? = some 'e' ∨ cs.head? = some 'E' then
    let rest := cs.tail
    let (esign, rest2) :=
      if rest.head? = some '+' then ((1 : ℤ), rest.tail)
      else if rest.head? = some '-' then ((-1 : ℤ), rest.tail)
      else ((1 : ℤ), rest)
    let (eds, rest3) := splitDigits rest2
    if eds = [] then none
    else some (esign * (digitsToNat eds : ℤ), rest3)
  else some (0, cs)

/-- Parse a JSON number (`-?(0|[1-9][0-9]*)(\.[0-9]+)?([eE][+-]?[0-9]+)?`)
exactly, as a mantissa together with a decimal scale (the denominator
exponent); the represented value is `mantissa / 10^scale`. -/
def parseNumber (cs : List Char) : Option ((ℤ × ℕ) × List Char) :=
  let (neg, cs1) := if cs.head? = some '-' then (true, cs.tail) else (false, cs)
  let (ids, rest1) := splitDigits cs1
  if ids = [] then none
  else if 1 < ids.length ∧ ids.head? = some '0' then none
  else
    let (fds, rest2) :=
      if rest1.head? = some '.' then splitDigits rest1.tail else ([], rest1)
    if rest1.head? = some '.' ∧ fds = [] then none
    else
      match parseExponent rest2 with
      | none => none
      | some (e, rest3) =>
        let unsigned : ℤ := ((digitsToNat ids * 10 ^ fds.length + digitsToNat fds : ℕ) : ℤ)
        let mant : ℤ := if neg then -unsigned else unsigned
        if 0 ≤ e then
          some ((mant * ((10 ^ e.toNat : ℕ) : ℤ), fds.length), rest3)
        else
          some ((mant, fds.length + (-e).toNat), rest3)

/-- Task tag for the recursive-descent JSON parser: a value, the items of an
array after its first element started, or the members of an object after its
first member started (with the accumulated prefix). -/
inductive PTask where
  | value : PTask
  | arrItems : List Json → PTask
  | objItems : List (String × Json) → PTask

/-- Recursive-descent JSON parser (strict RFC 8259 grammar, matching what
`json.loads` accepts on the modelled inputs).  Structurally recursive on
fuel; every recursive call is preceded by the consumption of at least one
input character, so fuel = input length + 1 always suffices. -/
def parseJ : ℕ → PTask → List Char → Option (Json × List Char)
  | 0, _, _ => none
  | fuel+1, PTask.value, cs =>
    match skipWS cs with
    | [] => none
    | c :: rest =>
      if c = 'n' then
        if rest.take 3 = ['u', 'l', 'l'] then some (.null, rest.drop 3) else none
      else if c = 't' then
        if rest.take 3 = ['r', 'u', 'e'] then some (.bool true, rest.drop 3) else none
      else if c = 'f' then
        if rest.take 4 = ['a', 'l', 's', 'e'] then some (.bool false, rest.drop 4) else none
      else if c = '"' then
        (parseStringAux rest.length rest []).map (fun p => (.str p.1, p.2))
      else if c = '[' then
        let rest2 := skipWS rest
        if rest2.head? = some ']' then some (.arr [], rest2.tail)
        else parseJ fuel (PTask.arrItems []) rest2
      else if c = lbrace then
        let rest2 := skipWS rest
        if rest2.head? = some rbrace then some (.obj [], rest2.tail)
        else parseJ fuel (PTask.objItems []) rest2
      else
        (parseNumber (c :: rest)).map (fun p => (.num p.1.1 p.1.2, p.2))
  | fuel+1, PTask.arrItems acc, cs =>
    match parseJ fuel PTask.value cs with
    | none => none
    | some (v, rest) =>
      match skipWS rest with
      | ',' :: rest3 => parseJ fuel (PTask.arrItems (acc ++ [v])) rest3
      | c :: rest3 => if c = ']' then some (.arr (acc ++ [v]), rest3) else none
      | [] => none
  | fuel+1, PTask.objItems acc, cs =>
    match skipWS cs with
    | c :: rest =>
      if c = '"' then
        match parseStringAux rest.length rest [] with
        | none => none
        | some (key, rest1) =>
          match skipWS rest1 with
          | ':' :: rest3 =>
            match parseJ fuel PTask.value rest3 with
            | none => none
            | some (v, rest4) =>
              let acc2 := setPair acc key v
              match skipWS rest4 with
              | ',' :: rest6 => parseJ fuel (PTask.objItems acc2) rest6
              | d :: rest6 => if d = rbrace then some (.obj acc2, rest6) else none
              | [] => none
          | _ => none
      else none
    | [] => none

/-- Model of `json.loads`: parse one JSON value and require only whitespace
to remain (Python raises on trailing data). -/
def json_loads (s : String) : Option Json :=
  match parseJ (s.length + 1) PTask.value s.data with
  | some (v, rest) => if skipWS rest = [] then some v else none
  | none => none

/-! ## Response extraction
(`ai_evaluator.py`, `_parse_evaluation_response`, lines 303-339)

The two `re.search` calls are modelled exactly for their patterns:
a fenced block search for `` ```json\s*(\{.*?\})\s*``` `` (DOTALL, lazy
group), then a bare greedy search for `\{.*\}` (DOTALL). -/

/-- Python `\s` on ASCII text: space, tab, newline, carriage return,
vertical tab, form feed. -/
def isPySpace (c : Char) : Bool :=
  c = ' ' || c = '\t' || c = '\n' || c = '\r' || c = '\x0b' || c = '\x0c'

/-- Lazy closing-brace search for the fenced group `(\{.*?\})`: find the
shortest prefix of the input ending at a closing brace that is followed by
optional whitespace and three backticks; returns the group content after the
opening brace, including that closing brace.  `seen` accumulates the scanned
prefix in reverse. -/
def fencedClose : List Char → List Char → Option (List Char)
  | _, [] => none
  | seen, c :: rest =>
    if c = rbrace && ("```".data).isPrefixOf (rest.dropWhile isPySpace) then
      some (seen.reverse ++ [c])
    else
      fencedClose (c :: seen) rest

/-- Attempt the fenced pattern anchored at the current position: the literal
`` ```json ``, greedy whitespace, then the lazy brace group.  (Greedy `\s*`
followed by a brace is equivalent to dropping the maximal whitespace run,
since a brace is not whitespace.) -/
def fencedAt (cs : List Char) : Option (List Char) :=
  if ("```json".data).isPrefixOf cs then
    match (cs.drop 7).dropWhile isPySpace with
    | c :: body =>
      if c = lbrace then (fencedClose [] body).map (fun inner => lbrace :: inner)
      else none
    | [] => none
  else none

/-- `re.search` semantics for the fenced pattern: leftmost successful
anchor position wins. -/
def fencedSearch : List Char → Option (List Char)
  | [] => none
  | c :: rest =>
    match fencedAt (c :: rest) with
    | some g => some g
    | none => fencedSearch rest

/-- `re.search(r'\{.*\}', text, re.DOTALL)`: the greedy match spans from the
first opening brace to the last closing brace, provided the latter comes
after the former. -/
def bareMatch (cs : List Char) : Option (List Char) :=
  match cs.findIdx? (fun c => c = lbrace), cs.reverse.findIdx? (fun c => c = rbrace) with
  | some i, some jr =>
    let j := cs.length - 1 - jr
    if i < j then some ((cs.drop i).take (j - i + 1)) else none
  | _, _ => none

/-- The JSON-substring extraction step of `_parse_evaluation_response`
(lines 306-316): fenced block first, bare brace span second. -/
def extract_json_str (response_text : String) : Option String :=
  match fencedSearch response_text.data with
  | some g => some (String.mk g)
  | none => (bareMatch response_text.data).map String.mk

/-- The fallback dictionary returned by the `except` branch of
`_parse_evaluation_response` (lines 326-339); `msg` is `str(e)` for the
caught exception. -/
def fallback_response (msg : String) (response_text : String) : Json :=
  .obj [ ("success", .bool false),
         ("error", .str ("Failed to parse response: " ++ msg)),
         ("raw_response", .str response_text),
         ("chain_of_thought", .obj [("parsing_error", .str msg)]),
         ("total_score", .num 0 0),
         ("max_possible_score", .num 100 0),
         ("percentage", .num 0 0),
         ("feedback", .obj
           [ ("strengths", .arr []),
             ("areas_for_improvement",
               .arr [.str "Response parsing failed - manual review required"]),
             ("specific_suggestions", .arr []) ]) ]

/-- `_parse_evaluation_response` (lines 303-339).  On a successful
`json.loads` of the extracted substring the result dictionary gets
`success = True` and `raw_response = response_text`.  Every failure —
no extractable substring (the `ValueError("No JSON found in response")`),
malformed JSON (`json.JSONDecodeError`), or a non-dictionary JSON value
(the `TypeError` on item assignment) — is caught by the `except` branch;
the exception text of the latter two is modelled by a fixed message. -/
def parse_evaluation_response (response_text : String) : Json :=
  match extract_json_str response_text with
  | none => fallback_response "No JSON found in response" response_text
  | some json_str =>
    match json_loads json_str with
    | some (Json.obj kvs) =>
      ((Json.obj kvs).setField "success" (.bool true)).setField
        "raw_response" (.str response_text)
    | _ => fallback_response "Invalid JSON" response_text

/-! ## The evaluator and its backend router
(`ai_evaluator.py`, lines 201-423) -/

/-- Client configuration of `AIEvaluator`.  A configured client is modelled
by the outcome of its API call in the evaluation under consideration:
`.error msg` when the SDK call raises an exception with message `msg`,
`.ok text` when it returns the response text.  An absent client is `none`.
The prompt arguments (question, answer, rubric, context) only influence the
request sent to the backend, whose outcome is already part of the modelled
client, so they do not appear; timestamps are omitted. -/
structure AIEvaluator where
  anthropic_client : Option (Except String String)
  openai_client : Option (Except String String)
  claude_model : String := "claude-3-7-sonnet-20250219"
  gpt_model : String := "gpt-4-turbo-preview"

/-- `evaluate_answer_with_claude` (lines 201-250): raises when the client is
absent; otherwise any exception from the API call or parsing is caught and
turned into an error dictionary, and a response text is parsed and tagged
with `model_used`. -/
def evaluate_answer_with_claude (ev : AIEvaluator) : Except String Json :=
  match ev.anthropic_client with
  | none => .error "Anthropic client not initialized. Check API key."
  | some (.error e) =>
    .ok (.obj [ ("success", .bool false), ("error", .str e),
                ("model_used", .str ev.claude_model) ])
  | some (.ok response_text) =>
    .ok ((parse_evaluation_response response_text).setField
          "model_used" (.str ev.claude_model))

/-- `evaluate_answer_with_gpt` (lines 252-301), the mirror image for the
OpenAI client. -/
def evaluate_answer_with_gpt (ev : AIEvaluator) : Except String Json :=
  match ev.openai_client with
  | none => .error "OpenAI client not initialized. Check API key."
  | some (.error e) =>
    .ok (.obj [ ("success", .bool false), ("error", .str e),
                ("model_used", .str ev.gpt_model) ])
  | some (.ok response_text) =>
    .ok ((parse_evaluation_response response_text).setField
          "model_used" (.str ev.gpt_model))

/-- `evaluate_answer` (lines 341-374): route to the preferred backend; an
exception raised by the Claude path falls back to GPT when that client
exists, else propagates; with no client at all raise
`ValueError("No AI client available for evaluation")`. -/
def evaluate_answer (ev : AIEvaluator) (preferred_model : String) :
    Except String Json :=
  if pyLower preferred_model = "claude" ∧ ev.anthropic_client.isSome then
    match evaluate_answer_with_claude ev with
    | .ok r => .ok r
    | .error e =>
      if ev.openai_client.isSome then evaluate_answer_with_gpt ev
      else .error e
  else if ev.openai_client.isSome then evaluate_answer_with_gpt ev
  else .error "No AI client available for evaluation"

/-- One entry of the `evaluation_requests` list handed to
`batch_evaluate_answers`; the defaults mirror the `request.get(…, default)`
calls (lines 390-396). -/
structure EvaluationRequest where
  question : String := ""
  student_answer : String := ""
  rubric : Json := .obj []
  context : String := ""
  preferred_model : String := "claude"

/-- The per-item post-processing of `batch_evaluate_answers` (lines 410-421):
an exception becomes an error dictionary carrying `request_index`; a result
dictionary gets `request_index` set. -/
def process_result (i : ℕ) : Except String Json → Json
  | .error e =>
    .obj [ ("success", .bool false), ("error", .str e),
           ("request_index", .num (i : ℤ) 0) ]
  | .ok result => result.setField "request_index" (.num (i : ℤ) 0)

/-- The `enumerate(results)` loop of `batch_evaluate_answers`. -/
def process_results : ℕ → List (Except String Json) → List Json
  | _, [] => []
  | i, r :: rest => process_result i r :: process_results (i + 1) rest

/-- `batch_evaluate_answers` (lines 376-423): evaluate every request
(`asyncio.gather` with `return_exceptions=True` collects each outcome,
exception or result, in input order), then convert. -/
def batch_evaluate_answers (ev : AIEvaluator)
    (evaluation_requests : List EvaluationRequest) : List Json :=
  process_results 0
    (evaluation_requests.map (fun request => evaluate_answer ev request.preferred_model))

/-! ## Pattern-based plagiarism detection
(`plagiarism_detector.py`, lines 325-477) -/

/-- `str.lower().strip()` on ASCII text: lowercase then strip surrounding
whitespace. -/
def pyStrip (cs : List Char) : List Char :=
  ((cs.dropWhile isPySpace).reverse.dropWhile isPySpace).reverse

/-- `re.sub(r'\s+', ' ', text)`: replace every maximal whitespace run by a
single space. -/
def collapseWS : List Char → List Char
  | [] => []
  | [c] => if isPySpace c then [' '] else [c]
  | c1 :: c2 :: rest =>
    if isPySpace c1 && isPySpace c2 then collapseWS (c2 :: rest)
    else (if isPySpace c1 then ' ' else c1) :: collapseWS (c2 :: rest)

/-- Python `\w` on ASCII text. -/
def isWordChar (c : Char) : Bool := c.isAlphanum || c = '_'

/-- The character class kept by `re.sub(r'[^\w\s.,;:!?-]', '', text)`. -/
def keepChar (c : Char) : Bool :=
  isWordChar c || isPySpace c || c = '.' || c = ',' || c = ';' || c = ':' ||
    c = '!' || c = '?' || c = '-'

/-- `_preprocess_text` (lines 385-391): lowercase, strip, collapse
whitespace, remove special characters. -/
def preprocess_text (text : String) : String :=
  String.mk ((collapseWS (pyStrip ((pyLower text).data))).filter keepChar)

/-- `str.split()` with no separator: split on whitespace runs, dropping
empty pieces.  `acc` holds the current word in reverse. -/
def pySplitAux : List Char → List Char → List (List Char)
  | acc, [] => if acc = [] then [] else [acc.reverse]
  | acc, c :: rest =>
    if isPySpace c then
      if acc = [] then pySplitAux [] rest
      else acc.reverse :: pySplitAux [] rest
    else pySplitAux (c :: acc) rest

def pySplit (s : String) : List String :=
  (pySplitAux [] s.data).map String.mk

/-- `re.findall(r'"[^"]*"', text)`: the leftmost non-overlapping quoted
segments, quotes included.  Fuel is the input length; every recursive call
consumes at least one character. -/
def findQuotes : ℕ → List Char → List (List Char)
  | 0, _ => []
  | _, [] => []
  | fuel+1, c :: rest =>
    if c = '"' then
      let inner := rest.takeWhile (fun d => d ≠ '"')
      match rest.drop inner.length with
      | d :: rest2 => ('"' :: (inner ++ [d])) :: findQuotes fuel rest2
      | [] => []
    else findQuotes fuel rest

structure QuoteCheck where
  detected : Bool
  percentage : ℚ
  quote_count : ℕ

/-- `_check_excessive_quotes` (lines 393-405). -/
def check_excessive_quotes (text : String) : QuoteCheck :=
  let quotes := findQuotes (text.length + 1) text.data
  let total_quoted_chars : ℕ := (quotes.map List.length).sum
  let quote_percentage : ℚ :=
    if text.data = [] then 0 else (total_quoted_chars : ℚ) / (text.length : ℚ)
  { detected := quote_percentage > 4/10
    percentage := quote_percentage
    quote_count := quotes.length }

/-- The 5-word windows of the word list (`range(len(words) - 5 + 1)`),
each joined with single spaces. -/
def phrase_windows (words : List String) : List String :=
  (List.range (words.length + 1 - 5)).map
    (fun i => String.intercalate " " ((words.drop i).take 5))

structure RepCheck where
  detected : Bool
  max_repetitions : ℕ
  repeated_phrases_count : ℕ

/-- `_check_repetitive_phrases` (lines 407-424): count 5-word phrase
occurrences; a phrase dictionary value is the count of its window. -/
def check_repetitive_phrases (text : String) : RepCheck :=
  let words := pySplit text
  let phrases := phrase_windows words
  let repeated := phrases.dedup.filter (fun p => phrases.count p > 1)
  let max_repetition := (repeated.map (fun p => phrases.count p)).foldr max 0
  { detected := max_repetition > 2
    max_repetitions := max_repetition
    repeated_phrases_count := repeated.length }

/-- `re.findall(r'\s{3,}', text)` is nonempty: some three consecutive
whitespace characters occur. -/
def has3WS : List Char → Bool
  | a :: b :: c :: rest =>
    (isPySpace a && isPySpace b && isPySpace c) || has3WS (b :: c :: rest)
  | _ => false

/-- `len(re.findall(r'[a-z][A-Z]', text))`: non-overlapping count of a
lowercase letter immediately followed by an uppercase letter. -/
def countLowerUpper : List Char → ℕ
  | a :: b :: rest =>
    if ('a' ≤ a ∧ a ≤ 'z') ∧ ('A' ≤ b ∧ b ≤ 'Z') then 1 + countLowerUpper rest
    else countLowerUpper (b :: rest)
  | _ => 0

/-- `re.findall(r'[.]{2,}|[!]{2,}|[?]{2,}', text)` is nonempty: two equal
consecutive sentence-punctuation characters occur. -/
def hasDoublePunct : List Char → Bool
  | a :: b :: rest =>
    (a = b ∧ (a = '.' ∨ a = '!' ∨ a = '?')) || hasDoublePunct (b :: rest)
  | _ => false

structure FormatCheck where
  detected : Bool
  inconsistent_spacing : Bool
  mixed_case_patterns : Bool
  unusual_punctuation : Bool
  indicator_count : ℕ

/-- `_check_unusual_formatting` (lines 426-440). -/
def check_unusual_formatting (text : String) : FormatCheck :=
  let inconsistent_spacing := has3WS text.data
  let mixed_case_patterns :=
    (countLowerUpper text.data : ℚ) > (text.length : ℚ) * (5/100)
  let unusual_punctuation := hasDoublePunct text.data
  let detected_count :=
    (if inconsistent_spacing then 1 else 0) +
    (if mixed_case_patterns then 1 else 0) +
    (if unusual_punctuation then 1 else 0)
  { detected := detected_count > 1
    inconsistent_spacing := inconsistent_spacing
    mixed_case_patterns := mixed_case_patterns
    unusual_punctuation := unusual_punctuation
    indicator_count := detected_count }

/-- Four consecutive digits occur in the list (`\d{4}` inside a
non-parenthesis segment). -/
def has4Digits : List Char → Bool
  | a :: b :: c :: d :: rest =>
    (a.isDigit && b.isDigit && c.isDigit && d.isDigit) || has4Digits (b :: c :: d :: rest)
  | _ => false

/-- `len(re.findall(r'\([^)]*\d{4}[^)]*\)', text))`: a match starting at an
opening parenthesis always extends to the first closing parenthesis after
it and requires four consecutive digits in between; on failure the scan
advances one character, on success it continues after the match. -/
def countParenCitations : ℕ → List Char → ℕ
  | 0, _ => 0
  | _, [] => 0
  | fuel+1, c :: rest =>
    if c = '(' then
      let inner := rest.takeWhile (fun d => d ≠ ')')
      match rest.drop inner.length with
      | _ :: rest2 =>
        if has4Digits inner then 1 + countParenCitations fuel rest2
        else countParenCitations fuel rest
      | [] => 0
    else countParenCitations fuel rest

/-- `len(re.findall(r'\[[^\]]*\d+[^\]]*\]', text))`, analogously with square
brackets and at least one digit. -/
def countBracketCitations : ℕ → List Char → ℕ
  | 0, _ => 0
  | _, [] => 0
  | fuel+1, c :: rest =>
    if c = '[' then
      let inner := rest.takeWhile (fun d => d ≠ ']')
      match rest.drop inner.length with
      | _ :: rest2 =>
        if inner.any Char.isDigit then 1 + countBracketCitations fuel rest2
        else countBracketCitations fuel rest
      | [] => 0
    else countBracketCitations fuel rest

/-- Case-insensitive prefix test against one of the three citation phrases;
returns the remainder after the phrase. -/
def phraseAt (cs : List Char) : Option (List Char) :=
  if (cs.take 12).map Char.toLower = "according to".data then some (cs.drop 12)
  else if (cs.take 12).map Char.toLower = "as stated by".data then some (cs.drop 12)
  else if (cs.take 8).map Char.toLower = "cited in".data then some (cs.drop 8)
  else none

/-- `len(re.findall(r'(?:according to|as stated by|cited in)\s+[^.]+', text,
re.IGNORECASE))`: after a phrase, the match needs a whitespace character and
then a second character that is not a period (`\s+` then `[^.]+`, with
backtracking); a successful match extends to the next period or the end of
the text. -/
def countPhraseCitations : ℕ → List Char → ℕ
  | 0, _ => 0
  | _, [] => 0
  | fuel+1, c :: rest =>
    match phraseAt (c :: rest) with
    | some after =>
      match after with
      | w :: x :: _ =>
        if isPySpace w ∧ x ≠ '.' then
          1 + countPhraseCitations fuel (after.dropWhile (fun d => d ≠ '.'))
        else countPhraseCitations fuel rest
      | _ => countPhraseCitations fuel rest
    | none => countPhraseCitations fuel rest

/-- `len(citations)` in `_check_citation_patterns`: the three findall counts
added (the code concatenates the three match lists and takes the length). -/
def citation_count (text : String) : ℕ :=
  countParenCitations (text.length + 1) text.data +
  countBracketCitations (text.length + 1) text.data +
  countPhraseCitations (text.length + 1) text.data

structure CitationCheck where
  detected : Bool
  citation_count : ℕ
  citation_density : ℚ

/-- `_check_citation_patterns` (lines 442-462). -/
def check_citation_patterns (text : String) : CitationCheck :=
  let citations := citation_count text
  let words := (pySplit text).length
  let density : ℚ :=
    if words > 0 then (citations : ℚ) / ((words : ℚ) / 100) else 0
  { detected := density > 5 || density < 1/2
    citation_count := citations
    citation_density := density }

/-- `_calculate_text_similarity` (lines 464-477): Jaccard similarity of the
word sets. -/
def calculate_text_similarity (text1 text2 : String) : ℚ :=
  let words1 := (pySplit text1).dedup
  let words2 := (pySplit text2).dedup
  if words1 = [] ∧ words2 = [] then 1
  else if words1 = [] ∨ words2 = [] then 0
  else
    let intersection := words1.filter (fun w => w ∈ words2)
    let union := (words1 ++ words2).dedup
    (intersection.length : ℚ) / (union.length : ℚ)

structure PatternResult where
  success : Bool
  suspicion_score : ℚ
  max_similarity : ℚ
  excessive_quotes : QuoteCheck
  repetitive_phrases : RepCheck
  unusual_formatting : FormatCheck
  citation_inconsistencies : CitationCheck
  reference_similarities : List ℚ

/-- `detect_pattern_based_plagiarism` (lines 325-383).  The pure
computation never raises, so the `except` branch is dead and `success` is
always true.  An absent `reference_texts` is the empty list (both are falsy
in the `if reference_texts:` test). -/
def detect_pattern_based_plagiarism (text : String)
    (reference_texts : List String) : PatternResult :=
  let clean_text := preprocess_text text
  let excessive_quotes := check_excessive_quotes text
  let repetitive_phrases := check_repetitive_phrases clean_text
  let unusual_formatting := check_unusual_formatting text
  let citation_inconsistencies := check_citation_patterns text
  let suspicion_score : ℚ :=
    (if excessive_quotes.detected then 3/10 else 0) +
    (if repetitive_phrases.detected then 4/10 else 0) +
    (if unusual_formatting.detected then 2/10 else 0) +
    (if citation_inconsistencies.detected then 1/10 else 0)
  let similarity_scores := reference_texts.map
    (fun ref_text => calculate_text_similarity clean_text (preprocess_text ref_text))
  let max_similarity : ℚ :=
    match similarity_scores with
    | [] => 0
    | x :: xs => xs.foldl max x
  { success := true
    suspicion_score := min suspicion_score 1
    max_similarity := max_similarity
    excessive_quotes := excessive_quotes
    repetitive_phrases := repetitive_phrases
    unusual_formatting := unusual_formatting
    citation_inconsistencies := citation_inconsistencies
    reference_similarities := similarity_scores }

/-! ## Claims -/

/-- C7: for every triple `(ai_probability, similarity_percentage,
pattern_suspicion)` extracted from the three detector results,
`comprehensive_plagiarism_check` computes `is_plagiarized` as
`(ai > 0.7) OR (similarity > 25) OR (pattern > 0.6)`, and
`confidence_score` as the mean of the three bucketed contributions
(AI: >0.7 ↦ 0.9, >0.5 ↦ 0.7, else 0.3; similarity: >30 ↦ 0.9, >15 ↦ 0.7,
else 0.3; pattern: >0.6 ↦ 0.8, >0.3 ↦ 0.6, else 0.4); in particular
`(0.8, 0, 0)` yields `is_plagiarized = true` with confidence
`(0.9 + 0.3 + 0.4) / 3`. -/
theorem comprehensive_check_verdict (ai sim pat : ℚ) :
    (is_plagiarized ai sim pat = true ↔ (ai > 7/10 ∨ sim > 25 ∨ pat > 6/10)) ∧
    overall_confidence ai sim pat =
      ((if ai > 7/10 then (9:ℚ)/10 else if ai > 5/10 then 7/10 else 3/10) +
       (if sim > 30 then (9:ℚ)/10 else if sim > 15 then 7/10 else 3/10) +
       (if pat > 6/10 then (8:ℚ)/10 else if pat > 3/10 then 6/10 else 4/10)) / 3 ∧
    is_plagiarized (8/10) 0 0 = true ∧
    overall_confidence (8/10) 0 0 = (9/10 + 3/10 + 4/10) / 3 := by
  refine ⟨?_, ?_, ?_, ?_⟩
  · simp [is_plagiarized, or_assoc]
  · unfold overall_confidence confidence_factors
    simp only [List.sum_cons, List.sum_nil, List.length_cons, List.length_nil]
    norm_num
    ring_nf
  · norm_num [is_plagiarized]
  · unfold overall_confidence confidence_factors
    norm_num

/-- C10: for every input, the `confidence_score` produced by
`comprehensive_plagiarism_check` is the mean of one value from
`{0.3, 0.7, 0.9}`, one from `{0.3, 0.7, 0.9}` and one from
`{0.4, 0.6, 0.8}`, hence lies in `[1/3, 13/15]` and never attains the
endpoints `0` or `1` of its declared `float[0,1]` range. -/
theorem confidence_score_bounds (ai sim pat : ℚ) :
    (∃ a ∈ ([3/10, 7/10, 9/10] : List ℚ), ∃ b ∈ ([3/10, 7/10, 9/10] : List ℚ),
      ∃ c ∈ ([4/10, 6/10, 8/10] : List ℚ),
        overall_confidence ai sim pat = (a + b + c) / 3) ∧
    1/3 ≤ overall_confidence ai sim pat ∧
    overall_confidence ai sim pat ≤ 13/15 ∧
    overall_confidence ai sim pat ≠ 0 ∧
    overall_confidence ai sim pat ≠ 1 := by
  have hval : overall_confidence ai sim pat =
      ((if ai > 7/10 then (9:ℚ)/10 else if ai > 5/10 then 7/10 else 3/10) +
       (if sim > 30 then (9:ℚ)/10 else if sim > 15 then 7/10 else 3/10) +
       (if pat > 6/10 then (8:ℚ)/10 else if pat > 3/10 then 6/10 else 4/10)) / 3 := by
    unfold overall_confidence confidence_factors
    simp only [List.sum_cons, List.sum_nil, List.length_cons, List.length_nil]
    norm_num
    ring_nf
  set A := (if ai > 7/10 then (9:ℚ)/10 else if ai > 5/10 then 7/10 else 3/10) with hA
  set B := (if sim > 30 then (9:ℚ)/10 else if sim > 15 then 7/10 else 3/10) with hB
  set C := (if pat > 6/10 then (8:ℚ)/10 else if pat > 3/10 then 6/10 else 4/10) with hC
  have hAm : A = 3/10 ∨ A = 7/10 ∨ A = 9/10 := by rw [hA]; split_ifs <;> norm_num
  have hBm : B = 3/10 ∨ B = 7/10 ∨ B = 9/10 := by rw [hB]; split_ifs <;> norm_num
  have hCm : C = 4/10 ∨ C = 6/10 ∨ C = 8/10 := by rw [hC]; split_ifs <;> norm_num
  have hAb : 3/10 ≤ A ∧ A ≤ 9/10 := by rcases hAm with h | h | h <;> rw [h] <;> norm_num
  have hBb : 3/10 ≤ B ∧ B ≤ 9/10 := by rcases hBm with h | h | h <;> rw [h] <;> norm_num
  have hCb : 4/10 ≤ C ∧ C ≤ 8/10 := by rcases hCm with h | h | h <;> rw [h] <;> norm_num
  refine ⟨⟨A, ?_, B, ?_, C, ?_, hval⟩, ?_, ?_, ?_, ?_⟩
  · simpa using hAm
  · simpa using hBm
  · simpa using hCm
  · rw [hval]; linarith [hAb.1, hBb.1, hCb.1]
  · rw [hval]; linarith [hAb.2, hBb.2, hCb.2]
  · rw [hval]; intro h; nlinarith [hAb.1, hBb.1, hCb.1]
  · rw [hval]; intro h; nlinarith [hAb.2, hBb.2, hCb.2]

/-! ### Rubric generation claims -/

lemma template_weight_bounds (question_type : String) :
    ∀ t ∈ criteria_templates question_type, 0 ≤ t.weight ∧ t.weight ≤ 1 := by
  intro t ht
  unfold criteria_templates at ht
  split_ifs at ht <;>
    simp only [essay_template, short_answer_template, analysis_template,
      List.mem_cons, List.not_mem_nil, or_false] at ht <;>
    rcases ht with h | h | h | h <;> subst h <;> norm_num

lemma pyInt_eq_floor {q : ℚ} (h : 0 ≤ q) : pyInt q = ⌊q⌋ := if_pos h

/-- C5 (counterexample): the claim says the per-criterion allocation is
`round(max_points * weight)`, but at `max_points = 5` with the
`short_answer` template's second criterion (weight `0.3`) the code's
`int(5 * 0.3) = int(1.5)` gives `1` while rounding `1.5` gives `2`
(both the half-up and the banker's rounding convention give `2` here). -/
theorem create_custom_rubric_not_round :
    ((create_custom_rubric "Math" "short_answer" 5 4).criteria[1]?).map Criterion.max_points
      = some 1 ∧
    (criteria_templates "short_answer")[1]?
      = some ⟨"Completeness", 3/10, "Coverage of all required elements"⟩ ∧
    round ((5 : ℚ) * (3/10)) = 2 ∧
    (1 : ℤ) ≠ 2 := by
  have htempl : criteria_templates "short_answer" = short_answer_template := by
    unfold criteria_templates
    rw [if_neg (by decide), if_neg (by decide)]
  refine ⟨?_, ?_, ?_, by decide⟩
  · unfold create_custom_rubric
    rw [htempl]
    simp only [short_answer_template, List.take_cons, List.map_cons,
      List.getElem?_cons_succ, List.getElem?_cons_zero, Option.map_some]
    show some (pyInt ((5 : ℚ) * (3/10))) = some 1
    rw [pyInt_eq_floor (by norm_num)]
    norm_num
  · rw [htempl]; rfl
  · norm_num [round_eq]

/-- C5 (amended): `create_custom_rubric` selects the template for the
question type (unknown types fall back to `short_answer`), slices it to
`criteria_count` entries, assigns each criterion
`max_points_i = int(max_points * weight_i)` — truncation, i.e. the floor
for the nonnegative values involved, not rounding — and synthesizes five
performance levels with points at the truncated 100%, 80%, 60%, 40% and 0%
of the criterion's points. -/
theorem create_custom_rubric_points (subject question_type : String)
    (max_points : ℤ) (criteria_count : ℕ) (hmp : 0 ≤ max_points) :
    (pyLower question_type ≠ "essay" → pyLower question_type ≠ "analysis" →
      criteria_templates question_type = short_answer_template) ∧
    (create_custom_rubric subject question_type max_points criteria_count).criteria.map
        Criterion.max_points =
      ((criteria_templates question_type).take criteria_count).map
        (fun t => ⌊(max_points : ℚ) * t.weight⌋) ∧
    ∀ c ∈ (create_custom_rubric subject question_type max_points criteria_count).criteria,
      c.performance_levels.map PerformanceLevel.points =
        [ c.max_points, ⌊(c.max_points : ℚ) * (8/10)⌋, ⌊(c.max_points : ℚ) * (6/10)⌋,
          ⌊(c.max_points : ℚ) * (4/10)⌋, 0 ] := by
  have hmpq : (0 : ℚ) ≤ (max_points : ℚ) := by exact_mod_cast hmp
  refine ⟨?_, ?_, ?_⟩
  · intro h1 h2
    unfold criteria_templates
    rw [if_neg h1, if_neg h2]
  · unfold create_custom_rubric
    simp only [List.map_map]
    refine List.map_congr_left ?_
    intro t ht
    have hw := template_weight_bounds question_type t (List.take_subset _ _ ht)
    simp only [Function.comp, make_criterion]
    exact pyInt_eq_floor (mul_nonneg hmpq hw.1)
  · intro c hc
    unfold create_custom_rubric at hc
    simp only [List.mem_map] at hc
    obtain ⟨t, ht, rfl⟩ := hc
    have hw := template_weight_bounds question_type t (List.take_subset _ _ ht)
    have hfl : pyInt ((max_points : ℚ) * t.weight) = ⌊(max_points : ℚ) * t.weight⌋ :=
      pyInt_eq_floor (mul_nonneg hmpq hw.1)
    have hq : (0 : ℚ) ≤ ((⌊(max_points : ℚ) * t.weight⌋ : ℤ) : ℚ) := by
      have := Int.floor_nonneg.mpr (mul_nonneg hmpq hw.1)
      exact_mod_cast this
    simp only [make_criterion, List.map_cons, List.map_nil, hfl]
    rw [pyInt_eq_floor (mul_nonneg hq (by norm_num)),
      pyInt_eq_floor (mul_nonneg hq (by norm_num)),
      pyInt_eq_floor (mul_nonneg hq (by norm_num))]

/-- C6: for every subject, question type, nonnegative `max_points` and
`criteria_count` n, the generated rubric has exactly `min n 4` criteria
(each built-in template has 4 entries, so exactly n, or fewer when the
template has fewer), every criterion's `max_points` is at most
`max_points`, and every criterion has exactly five performance levels with
non-increasing points. -/
theorem create_custom_rubric_shape (subject question_type : String)
    (max_points : ℤ) (criteria_count : ℕ) (hmp : 0 ≤ max_points) :
    (create_custom_rubric subject question_type max_points criteria_count).criteria.length
      = min criteria_count (criteria_templates question_type).length ∧
    (criteria_templates question_type).length = 4 ∧
    ∀ c ∈ (create_custom_rubric subject question_type max_points criteria_count).criteria,
      c.max_points ≤ max_points ∧
      c.performance_levels.length = 5 ∧
      List.Chain' (fun a b => b.points ≤ a.points) c.performance_levels := by
  have hmpq : (0 : ℚ) ≤ (max_points : ℚ) := by exact_mod_cast hmp
  refine ⟨?_, ?_, ?_⟩
  · simp [create_custom_rubric]
  · unfold criteria_templates
    split_ifs <;> rfl
  · intro c hc
    unfold create_custom_rubric at hc
    simp only [List.mem_map] at hc
    obtain ⟨t, ht, rfl⟩ := hc
    have hw := template_weight_bounds question_type t (List.take_subset _ _ ht)
    have hfl : pyInt ((max_points : ℚ) * t.weight) = ⌊(max_points : ℚ) * t.weight⌋ :=
      pyInt_eq_floor (mul_nonneg hmpq hw.1)
    have hp : (0 : ℤ) ≤ pyInt ((max_points : ℚ) * t.weight) := by
      rw [hfl]; exact Int.floor_nonneg.mpr (mul_nonneg hmpq hw.1)
    have hpq : (0 : ℚ) ≤ ((pyInt ((max_points : ℚ) * t.weight) : ℤ) : ℚ) := by
      exact_mod_cast hp
    refine ⟨?_, by simp [make_criterion], ?_⟩
    · show pyInt ((max_points : ℚ) * t.weight) ≤ max_points
      rw [hfl]
      calc ⌊(max_points : ℚ) * t.weight⌋ ≤ ⌊(max_points : ℚ)⌋ :=
            Int.floor_mono (mul_le_of_le_one_right hmpq hw.2)
        _ = max_points := Int.floor_intCast max_points
    · simp only [make_criterion, List.chain'_cons, List.chain'_singleton, and_true]
      set p := pyInt ((max_points : ℚ) * t.weight) with hpdef
      have h8 : pyInt ((p : ℚ) * (8/10)) ≤ p := by
        rw [pyInt_eq_floor (by positivity)]
        calc ⌊(p : ℚ) * (8/10)⌋ ≤ ⌊(p : ℚ)⌋ :=
              Int.floor_mono (by nlinarith)
          _ = p := Int.floor_intCast p
      have h6 : pyInt ((p : ℚ) * (6/10)) ≤ pyInt ((p : ℚ) * (8/10)) := by
        rw [pyInt_eq_floor (by positivity), pyInt_eq_floor (by positivity)]
        exact Int.floor_mono (by nlinarith)
      have h4 : pyInt ((p : ℚ) * (4/10)) ≤ pyInt ((p : ℚ) * (6/10)) := by
        rw [pyInt_eq_floor (by positivity), pyInt_eq_floor (by positivity)]
        exact Int.floor_mono (by nlinarith)
      have h0 : (0 : ℤ) ≤ pyInt ((p : ℚ) * (4/10)) := by
        rw [pyInt_eq_floor (by positivity)]
        exact Int.floor_nonneg.mpr (by positivity)
      exact ⟨h8, h6, h4, h0⟩

/-- Witness for `create_custom_rubric_points` at
`("Math", "short_answer", 5, 4)`. -/
theorem create_custom_rubric_points_witness :
    (0 : ℤ) ≤ 5 ∧
    (create_custom_rubric "Math" "short_answer" 5 4).criteria.map Criterion.max_points =
      ((criteria_templates "short_answer").take 4).map (fun t => ⌊(5 : ℚ) * t.weight⌋) :=
  ⟨by norm_num, (create_custom_rubric_points "Math" "short_answer" 5 4 (by norm_num)).2.1⟩

/-- Witness for `create_custom_rubric_shape` at `("History", "essay", 100, 4)`. -/
theorem create_custom_rubric_shape_witness :
    (0 : ℤ) ≤ 100 ∧
    (create_custom_rubric "History" "essay" 100 4).criteria.length =
      min 4 (criteria_templates "essay").length :=
  ⟨by norm_num, (create_custom_rubric_shape "History" "essay" 100 4 (by norm_num)).1⟩

/-! ### Response-parser claims -/

lemma lookup_setPair_self (l : List (String × Json)) (k : String) (v : Json) :
    (setPair l k v).lookup k = some v := by
  induction l with
  | nil => simp [setPair, List.lookup]
  | cons p rest ih =>
    obtain ⟨k', v'⟩ := p
    by_cases h : k' = k
    · subst h
      simp [setPair, List.lookup]
    · simp only [setPair, if_neg h, List.lookup]
      rw [beq_eq_false_iff_ne.mpr (Ne.symm h)]
      exact ih

lemma lookup_setPair_ne (l : List (String × Json)) (k k' : String) (v : Json)
    (h : k' ≠ k) : (setPair l k v).lookup k' = l.lookup k' := by
  induction l with
  | nil =>
    simp only [setPair, List.lookup]
    rw [beq_eq_false_iff_ne.mpr h]
  | cons p rest ih =>
    obtain ⟨k'', v''⟩ := p
    by_cases hk : k'' = k
    · subst hk
      simp only [setPair, if_pos rfl, List.lookup]
      rw [beq_eq_false_iff_ne.mpr h]
    · simp only [setPair, if_neg hk, List.lookup]
      cases hbe : (k' == k'') with
      | true => rfl
      | false => exact ih

lemma getField_setField_self (kvs : List (String × Json)) (k : String) (v : Json) :
    ((Json.obj kvs).setField k v).getField k = some v := by
  show (setPair kvs k v).lookup k = some v
  exact lookup_setPair_self kvs k v

lemma getField_setField_ne (kvs : List (String × Json)) (k k' : String) (v : Json)
    (h : k' ≠ k) :
    ((Json.obj kvs).setField k v).getField k' = (Json.obj kvs).getField k' := by
  show (setPair kvs k v).lookup k' = kvs.lookup k'
  exact lookup_setPair_ne kvs k k' v h

lemma parse_evaluation_response_obj (response_text : String) :
    ∃ kvs, parse_evaluation_response response_text = Json.obj kvs := by
  cases h : extract_json_str response_text with
  | none =>
    have hp : parse_evaluation_response response_text
        = fallback_response "No JSON found in response" response_text := by
      simp only [parse_evaluation_response, h]
    rw [hp]
    exact ⟨_, rfl⟩
  | some s =>
    cases hj : json_loads s with
    | none =>
      have hp : parse_evaluation_response response_text
          = fallback_response "Invalid JSON" response_text := by
        simp only [parse_evaluation_response, h, hj]
      rw [hp]
      exact ⟨_, rfl⟩
    | some v =>
      cases v with
      | obj kvs =>
        have hp : parse_evaluation_response response_text
            = ((Json.obj kvs).setField "success" (.bool true)).setField
                "raw_response" (.str response_text) := by
          simp only [parse_evaluation_response, h, hj]
        rw [hp]
        exact ⟨_, rfl⟩
      | null =>
        have hp : parse_evaluation_response response_text
            = fallback_response "Invalid JSON" response_text := by
          simp only [parse_evaluation_response, h, hj]
        rw [hp]
        exact ⟨_, rfl⟩
      | bool b =>
        have hp : parse_evaluation_response response_text
            = fallback_response "Invalid JSON" response_text := by
          simp only [parse_evaluation_response, h, hj]
        rw [hp]
        exact ⟨_, rfl⟩
      | num m sc =>
        have hp : parse_evaluation_response response_text
            = fallback_response "Invalid JSON" response_text := by
          simp only [parse_evaluation_response, h, hj]
        rw [hp]
        exact ⟨_, rfl⟩
      | str t =>
        have hp : parse_evaluation_response response_text
            = fallback_response "Invalid JSON" response_text := by
          simp only [parse_evaluation_response, h, hj]
        rw [hp]
        exact ⟨_, rfl⟩
      | arr xs =>
        have hp : parse_evaluation_response response_text
            = fallback_response "Invalid JSON" response_text := by
          simp only [parse_evaluation_response, h, hj]
        rw [hp]
        exact ⟨_, rfl⟩

/-- C3: whenever no JSON substring can be extracted from the raw response,
or the extracted substring does not parse, `_parse_evaluation_response`
returns the fallback record: `success = false`, an error string describing
the parse failure, `total_score = 0`, `max_possible_score = 100`,
`percentage = 0`, `feedback.areas_for_improvement =
["Response parsing failed - manual review required"]`, and `raw_response`
equal to the input text.  (Being a total function, the model never
raises.) -/
theorem parse_evaluation_response_fallback (response_text : String)
    (h : extract_json_str response_text = none ∨
      ∃ s, extract_json_str response_text = some s ∧ json_loads s = none) :
    (∃ msg, parse_evaluation_response response_text
      = fallback_response msg response_text) ∧
    (parse_evaluation_response response_text).getField "success"
      = some (.bool false) ∧
    (∃ e, (parse_evaluation_response response_text).getField "error"
      = some (.str ("Failed to parse response: " ++ e))) ∧
    (parse_evaluation_response response_text).getField "total_score"
      = some (.num 0 0) ∧
    (parse_evaluation_response response_text).getField "max_possible_score"
      = some (.num 100 0) ∧
    (parse_evaluation_response response_text).getField "percentage"
      = some (.num 0 0) ∧
    ((parse_evaluation_response response_text).getField "feedback").bind
        (fun f => f.getField "areas_for_improvement")
      = some (.arr [.str "Response parsing failed - manual review required"]) ∧
    (parse_evaluation_response response_text).getField "raw_response"
      = some (.str response_text) := by
  have key : ∃ msg, parse_evaluation_response response_text
      = fallback_response msg response_text := by
    rcases h with h | ⟨s, hs, hj⟩
    · refine ⟨"No JSON found in response", ?_⟩
      simp only [parse_evaluation_response, h]
    · refine ⟨"Invalid JSON", ?_⟩
      simp only [parse_evaluation_response, hs, hj]
  obtain ⟨msg, hm⟩ := key
  rw [hm]
  exact ⟨⟨msg, rfl⟩, rfl, ⟨msg, rfl⟩, rfl, rfl, rfl, rfl, rfl⟩

/-- Witness for `parse_evaluation_response_fallback` on a text with no
braces at all. -/
theorem parse_evaluation_response_fallback_witness :
    (extract_json_str "no json here" = none ∨
      ∃ s, extract_json_str "no json here" = some s ∧ json_loads s = none) ∧
    (parse_evaluation_response "no json here").getField "raw_response"
      = some (.str "no json here") :=
  ⟨Or.inl rfl,
    (parse_evaluation_response_fallback "no json here" (Or.inl rfl)).2.2.2.2.2.2.2⟩

/-- C4 (counterexample): the text `{"a": 1} }` contains the valid bare JSON
object `{"a": 1}`, yet the greedy bare regex `\{.*\}` spans from the first
opening brace to the LAST closing brace, extracting the malformed substring
`{"a": 1} }`, so the parse falls back with `success = false` instead of
extracting the contained object. -/
theorem parse_evaluation_response_greedy_counterexample :
    "\x7b\"a\": 1\x7d \x7d" = "\x7b\"a\": 1\x7d" ++ " \x7d" ∧
    json_loads "\x7b\"a\": 1\x7d" = some (.obj [("a", .num 1 0)]) ∧
    extract_json_str "\x7b\"a\": 1\x7d \x7d" = some "\x7b\"a\": 1\x7d \x7d" ∧
    json_loads "\x7b\"a\": 1\x7d \x7d" = none ∧
    (parse_evaluation_response "\x7b\"a\": 1\x7d \x7d").getField "success"
      = some (.bool false) :=
  ⟨rfl, rfl, rfl, rfl, rfl⟩

/-- C4 (amended): for every raw response text, when the extracted substring
(the fenced ```json block searched first; otherwise the span from the first
opening brace to the last closing brace) parses as a JSON object,
`_parse_evaluation_response` returns a result with `success = true` and
`raw_response` equal to the input text. -/
theorem parse_evaluation_response_success (response_text json_str : String)
    (kvs : List (String × Json))
    (h1 : extract_json_str response_text = some json_str)
    (h2 : json_loads json_str = some (Json.obj kvs)) :
    (parse_evaluation_response response_text).getField "success"
      = some (.bool true) ∧
    (parse_evaluation_response response_text).getField "raw_response"
      = some (.str response_text) := by
  have hp : parse_evaluation_response response_text
      = ((Json.obj kvs).setField "success" (.bool true)).setField
          "raw_response" (.str response_text) := by
    simp only [parse_evaluation_response, h1, h2]
  rw [hp]
  have e1 : (Json.obj kvs).setField "success" (.bool true)
      = Json.obj (setPair kvs "success" (.bool true)) := rfl
  constructor
  · rw [e1, getField_setField_ne _ _ _ _ (by decide)]
    exact getField_setField_self _ _ _
  · rw [e1]
    exact getField_setField_self _ _ _

/-- Witness for `parse_evaluation_response_success` on a fenced response. -/
theorem parse_evaluation_response_success_witness :
    extract_json_str "```json\n\x7b\"total_score\": 5\x7d\n```"
      = some "\x7b\"total_score\": 5\x7d" ∧
    json_loads "\x7b\"total_score\": 5\x7d" = some (.obj [("total_score", .num 5 0)]) ∧
    (parse_evaluation_response "```json\n\x7b\"total_score\": 5\x7d\n```").getField
      "success" = some (.bool true) :=
  ⟨rfl, rfl,
    (parse_evaluation_response_success "```json\n\x7b\"total_score\": 5\x7d\n```"
      "\x7b\"total_score\": 5\x7d" [("total_score", .num 5 0)] rfl rfl).1⟩

/-! ### Backend-router claims -/

/-- Every parse result carries a boolean `success` field and, when it is
false, an `error` string. -/
lemma parse_success_flag (response_text : String) :
    ∃ b, (parse_evaluation_response response_text).getField "success" = some (.bool b) ∧
      (b = false → ∃ m,
        (parse_evaluation_response response_text).getField "error" = some (.str m)) := by
  cases h : extract_json_str response_text with
  | none =>
    have hp : parse_evaluation_response response_text
        = fallback_response "No JSON found in response" response_text := by
      simp only [parse_evaluation_response, h]
    rw [hp]
    exact ⟨false, rfl, fun _ => ⟨_, rfl⟩⟩
  | some s =>
    cases hj : json_loads s with
    | none =>
      have hp : parse_evaluation_response response_text
          = fallback_response "Invalid JSON" response_text := by
        simp only [parse_evaluation_response, h, hj]
      rw [hp]
      exact ⟨false, rfl, fun _ => ⟨_, rfl⟩⟩
    | some v =>
      cases v with
      | obj kvs =>
        have hp : parse_evaluation_response response_text
            = ((Json.obj kvs).setField "success" (.bool true)).setField
                "raw_response" (.str response_text) := by
          simp only [parse_evaluation_response, h, hj]
        rw [hp]
        refine ⟨true, ?_, fun hb => by simp at hb⟩
        have e1 : (Json.obj kvs).setField "success" (.bool true)
            = Json.obj (setPair kvs "success" (.bool true)) := rfl
        rw [e1, getField_setField_ne _ _ _ _ (by decide)]
        exact getField_setField_self _ _ _
      | null =>
        have hp : parse_evaluation_response response_text
            = fallback_response "Invalid JSON" response_text := by
          simp only [parse_evaluation_response, h, hj]
        rw [hp]
        exact ⟨false, rfl, fun _ => ⟨_, rfl⟩⟩
      | bool b =>
        have hp : parse_evaluation_response response_text
            = fallback_response "Invalid JSON" response_text := by
          simp only [parse_evaluation_response, h, hj]
        rw [hp]
        exact ⟨false, rfl, fun _ => ⟨_, rfl⟩⟩
      | num m sc =>
        have hp : parse_evaluation_response response_text
            = fallback_response "Invalid JSON" response_text := by
          simp only [parse_evaluation_response, h, hj]
        rw [hp]
        exact ⟨false, rfl, fun _ => ⟨_, rfl⟩⟩
      | str t =>
        have hp : parse_evaluation_response response_text
            = fallback_response "Invalid JSON" response_text := by
          simp only [parse_evaluation_response, h, hj]
        rw [hp]
        exact ⟨false, rfl, fun _ => ⟨_, rfl⟩⟩
      | arr xs =>
        have hp : parse_evaluation_response response_text
            = fallback_response "Invalid JSON" response_text := by
          simp only [parse_evaluation_response, h, hj]
        rw [hp]
        exact ⟨false, rfl, fun _ => ⟨_, rfl⟩⟩

/-- Tagging a parse result with `model_used` preserves the success flag and
the error field. -/
lemma parse_success_flag_tagged (response_text model : String) :
    ∃ b, ((parse_evaluation_response response_text).setField "model_used"
        (.str model)).getField "success" = some (.bool b) ∧
      (b = false → ∃ m,
        ((parse_evaluation_response response_text).setField "model_used"
          (.str model)).getField "error" = some (.str m)) := by
  obtain ⟨kvs, hk⟩ := parse_evaluation_response_obj response_text
  obtain ⟨b, hb, herr⟩ := parse_success_flag response_text
  rw [hk] at hb herr ⊢
  refine ⟨b, ?_, fun hbf => ?_⟩
  · rw [getField_setField_ne _ _ _ _ (by decide)]
    exact hb
  · obtain ⟨m, hm⟩ := herr hbf
    refine ⟨m, ?_⟩
    rw [getField_setField_ne _ _ _ _ (by decide)]
    exact hm

/-- Every successful return of the Claude path is a dictionary with a
success flag and error-on-failure. -/
lemma claude_ok_flag (ev : AIEvaluator) (r : Json)
    (h : evaluate_answer_with_claude ev = .ok r) :
    ∃ b, r.getField "success" = some (.bool b) ∧
      (b = false → ∃ m, r.getField "error" = some (.str m)) := by
  unfold evaluate_answer_with_claude at h
  cases hc : ev.anthropic_client with
  | none => rw [hc] at h; cases h
  | some beh =>
    rw [hc] at h
    cases beh with
    | error e =>
      cases h
      exact ⟨false, rfl, fun _ => ⟨e, rfl⟩⟩
    | ok response_text =>
      cases h
      exact parse_success_flag_tagged response_text ev.claude_model

/-- Mirror of `claude_ok_flag` for the GPT path. -/
lemma gpt_ok_flag (ev : AIEvaluator) (r : Json)
    (h : evaluate_answer_with_gpt ev = .ok r) :
    ∃ b, r.getField "success" = some (.bool b) ∧
      (b = false → ∃ m, r.getField "error" = some (.str m)) := by
  unfold evaluate_answer_with_gpt at h
  cases hc : ev.openai_client with
  | none => rw [hc] at h; cases h
  | some beh =>
    rw [hc] at h
    cases beh with
    | error e =>
      cases h
      exact ⟨false, rfl, fun _ => ⟨e, rfl⟩⟩
    | ok response_text =>
      cases h
      exact parse_success_flag_tagged response_text ev.gpt_model

/-- C1 (counterexample): with a failing primary client and a working
secondary client, `evaluate_answer(preferred="claude")` returns a record
whose `model_used` is the PRIMARY model identifier, not the secondary's. -/
theorem evaluate_answer_fallback_counterexample :
    (evaluate_answer
        { anthropic_client := some (.error "API connection error"),
          openai_client := some (.ok "\x7b\"total_score\": 5\x7d") } "claude").map
      (fun r => r.getField "model_used")
      = .ok (some (.str "claude-3-7-sonnet-20250219")) ∧
    ({ anthropic_client := some (.error "API connection error"),
       openai_client := some (.ok "\x7b\"total_score\": 5\x7d") } : AIEvaluator).gpt_model
      = "gpt-4-turbo-preview" ∧
    "claude-3-7-sonnet-20250219" ≠ "gpt-4-turbo-preview" :=
  ⟨rfl, rfl, by decide⟩

/-- C1 (amended): when the primary (Anthropic) API call raises an
exception, the exception is absorbed inside `evaluate_answer_with_claude`,
which returns an error record tagged with the PRIMARY model;
`evaluate_answer` returns that record unchanged (`success = false`,
`error` = the exception message, `model_used` = the primary identifier) and
the secondary client is never invoked, however it is configured. -/
theorem evaluate_answer_primary_error (ev : AIEvaluator) (e : String)
    (h : ev.anthropic_client = some (.error e)) :
    evaluate_answer ev "claude" =
      .ok (.obj [ ("success", .bool false), ("error", .str e),
                  ("model_used", .str ev.claude_model) ]) := by
  have hcl : evaluate_answer_with_claude ev =
      .ok (.obj [ ("success", .bool false), ("error", .str e),
                  ("model_used", .str ev.claude_model) ]) := by
    simp only [evaluate_answer_with_claude, h]
  unfold evaluate_answer
  rw [if_pos ⟨by decide, by rw [h]; rfl⟩, hcl]

/-- Witness for `evaluate_answer_primary_error`: a concrete failing primary
next to a configured secondary. -/
theorem evaluate_answer_primary_error_witness :
    evaluate_answer
      { anthropic_client := some (.error "boom"),
        openai_client := some (.ok "ignored") } "claude" =
      .ok (.obj [ ("success", .bool false), ("error", .str "boom"),
                  ("model_used", .str "claude-3-7-sonnet-20250219") ]) :=
  evaluate_answer_primary_error
    { anthropic_client := some (.error "boom"),
      openai_client := some (.ok "ignored") } "boom" rfl

/-- C2 (counterexample): with no backend client configured,
`evaluate_answer` raises `ValueError("No AI client available for
evaluation")` instead of returning a result object. -/
theorem evaluate_answer_raises_counterexample :
    evaluate_answer { anthropic_client := none, openai_client := none } "claude"
      = .error "No AI client available for evaluation" := rfl

/-- C2 (amended): whenever a usable client is configured (the Anthropic one
for `preferred_model = "claude"`, or the OpenAI one otherwise),
`evaluate_answer` returns a result dictionary carrying a boolean `success`
flag and, on failure, an `error` string; with no usable client it raises
`ValueError`. -/
theorem evaluate_answer_total (ev : AIEvaluator) (preferred_model : String) :
    ((pyLower preferred_model = "claude" ∧ ev.anthropic_client.isSome = true) ∨
        ev.openai_client.isSome = true →
      ∃ r, evaluate_answer ev preferred_model = .ok r ∧
        ∃ b, r.getField "success" = some (.bool b) ∧
          (b = false → ∃ m, r.getField "error" = some (.str m))) ∧
    (¬(pyLower preferred_model = "claude" ∧ ev.anthropic_client.isSome = true) →
      ev.openai_client.isSome = false →
      evaluate_answer ev preferred_model
        = .error "No AI client available for evaluation") := by
  constructor
  · intro hcfg
    by_cases hc : pyLower preferred_model = "claude" ∧ ev.anthropic_client.isSome = true
    · cases hcl : evaluate_answer_with_claude ev with
      | ok r =>
        refine ⟨r, ?_, claude_ok_flag ev r hcl⟩
        unfold evaluate_answer
        rw [if_pos hc, hcl]
      | error e =>
        exfalso
        obtain ⟨beh, hbeh⟩ := Option.isSome_iff_exists.mp hc.2
        unfold evaluate_answer_with_claude at hcl
        rw [hbeh] at hcl
        cases beh with
        | error msg => cases hcl
        | ok t => cases hcl
    · have ho : ev.openai_client.isSome = true := by
        rcases hcfg with h | h
        · exact absurd h hc
        · exact h
      obtain ⟨beh, hbeh⟩ := Option.isSome_iff_exists.mp ho
      cases hgpt : evaluate_answer_with_gpt ev with
      | ok r =>
        refine ⟨r, ?_, gpt_ok_flag ev r hgpt⟩
        unfold evaluate_answer
        rw [if_neg hc, if_pos ho, hgpt]
      | error e =>
        exfalso
        unfold evaluate_answer_with_gpt at hgpt
        rw [hbeh] at hgpt
        cases beh with
        | error msg => cases hgpt
        | ok t => cases hgpt
  · intro hc ho
    unfold evaluate_answer
    rw [if_neg hc, if_neg (by rw [ho]; simp)]

/-- Witness for `evaluate_answer_total`: clientless configuration with a
non-claude preference raises the `ValueError`. -/
theorem evaluate_answer_total_witness :
    evaluate_answer { anthropic_client := none, openai_client := none } "gpt"
      = .error "No AI client available for evaluation" :=
  (evaluate_answer_total
      { anthropic_client := none, openai_client := none } "gpt").2
    (by intro hx; exact absurd hx.2 (by decide)) rfl

/-! ### Batch-evaluation claim -/

lemma process_results_length (l : List (Except String Json)) (k : ℕ) :
    (process_results k l).length = l.length := by
  induction l generalizing k with
  | nil => rfl
  | cons x xs ih => simp [process_results, ih]

lemma process_results_getElem (l : List (Except String Json)) (k i : ℕ) :
    (process_results k l)[i]? = l[i]?.map (fun r => process_result (k + i) r) := by
  induction l generalizing k i with
  | nil => simp [process_results]
  | cons x xs ih =>
    cases i with
    | zero => simp [process_results]
    | succ n =>
      have e1 : k + (n + 1) = (k + 1) + n := by omega
      rw [e1]
      simp only [process_results, List.getElem?_cons_succ]
      exact ih (k + 1) n

/-- Every successful return of `evaluate_answer` is a dictionary. -/
lemma evaluate_answer_ok_obj (ev : AIEvaluator) (p : String) (r : Json)
    (h : evaluate_answer ev p = .ok r) : ∃ kvs, r = Json.obj kvs := by
  have claude_obj : ∀ r', evaluate_answer_with_claude ev = .ok r' →
      ∃ kvs, r' = Json.obj kvs := by
    intro r' h'
    unfold evaluate_answer_with_claude at h'
    cases hc : ev.anthropic_client with
    | none => rw [hc] at h'; cases h'
    | some beh =>
      rw [hc] at h'
      cases beh with
      | error e => cases h'; exact ⟨_, rfl⟩
      | ok t =>
        cases h'
        obtain ⟨kvs, hk⟩ := parse_evaluation_response_obj t
        rw [hk]
        exact ⟨_, rfl⟩
  have gpt_obj : ∀ r', evaluate_answer_with_gpt ev = .ok r' →
      ∃ kvs, r' = Json.obj kvs := by
    intro r' h'
    unfold evaluate_answer_with_gpt at h'
    cases hc : ev.openai_client with
    | none => rw [hc] at h'; cases h'
    | some beh =>
      rw [hc] at h'
      cases beh with
      | error e => cases h'; exact ⟨_, rfl⟩
      | ok t =>
        cases h'
        obtain ⟨kvs, hk⟩ := parse_evaluation_response_obj t
        rw [hk]
        exact ⟨_, rfl⟩
  unfold evaluate_answer at h
  by_cases h1 : pyLower p = "claude" ∧ ev.anthropic_client.isSome = true
  · rw [if_pos h1] at h
    cases hcl : evaluate_answer_with_claude ev with
    | ok r' =>
      rw [hcl] at h
      have h' : (Except.ok r' : Except String Json) = .ok r := h
      cases h'
      exact claude_obj _ hcl
    | error e =>
      rw [hcl] at h
      have h' : (if ev.openai_client.isSome then evaluate_answer_with_gpt ev
          else .error e) = .ok r := h
      by_cases h2 : ev.openai_client.isSome = true
      · rw [if_pos h2] at h'
        exact gpt_obj _ h'
      · rw [if_neg h2] at h'
        cases h'
  · rw [if_neg h1] at h
    by_cases h2 : ev.openai_client.isSome = true
    · rw [if_pos h2] at h
      exact gpt_obj _ h
    · rw [if_neg h2] at h
      cases h

/-- C8: for every list of N evaluation requests, `batch_evaluate_answers`
returns exactly N results in input order; the i-th result is exactly the
post-processing of the i-th request's own evaluation outcome (so it is
unaffected by the other requests), carries `request_index = i`, and an
exception raised by that request is converted into a record with
`success = false` and the exception's error string. -/
theorem batch_evaluate_answers_spec (ev : AIEvaluator)
    (evaluation_requests : List EvaluationRequest) :
    (batch_evaluate_answers ev evaluation_requests).length
      = evaluation_requests.length ∧
    ∀ i (hi : i < evaluation_requests.length),
      (batch_evaluate_answers ev evaluation_requests)[i]? =
        some (process_result i
          (evaluate_answer ev (evaluation_requests.get ⟨i, hi⟩).preferred_model)) ∧
      (process_result i
          (evaluate_answer ev
            (evaluation_requests.get ⟨i, hi⟩).preferred_model)).getField
        "request_index" = some (.num (i : ℤ) 0) ∧
      ∀ e, evaluate_answer ev (evaluation_requests.get ⟨i, hi⟩).preferred_model
          = .error e →
        process_result i
            (evaluate_answer ev (evaluation_requests.get ⟨i, hi⟩).preferred_model)
          = .obj [ ("success", .bool false), ("error", .str e),
                   ("request_index", .num (i : ℤ) 0) ] := by
  refine ⟨?_, ?_⟩
  · unfold batch_evaluate_answers
    rw [process_results_length, List.length_map]
  · intro i hi
    refine ⟨?_, ?_, ?_⟩
    · unfold batch_evaluate_answers
      rw [process_results_getElem]
      rw [List.getElem?_map]
      rw [List.getElem?_eq_getElem hi]
      simp
    · cases hr : evaluate_answer ev (evaluation_requests.get ⟨i, hi⟩).preferred_model with
      | error e => rfl
      | ok r =>
        obtain ⟨kvs, rfl⟩ := evaluate_answer_ok_obj ev _ r hr
        exact getField_setField_self _ _ _
    · intro e he
      rw [he]
      rfl

/-- Witness for `batch_evaluate_answers_spec`: a clientless two-request
batch, whose second entry is the converted per-request exception. -/
theorem batch_evaluate_answers_spec_witness :
    (batch_evaluate_answers { anthropic_client := none, openai_client := none }
        ([{}, {}] : List EvaluationRequest)).length = 2 ∧
    (batch_evaluate_answers { anthropic_client := none, openai_client := none }
        ([{}, {}] : List EvaluationRequest))[1]? =
      some (process_result 1
        (evaluate_answer { anthropic_client := none, openai_client := none }
          (({} : EvaluationRequest).preferred_model))) := by
  have h := batch_evaluate_answers_spec
    { anthropic_client := none, openai_client := none } ([{}, {}] : List EvaluationRequest)
  exact ⟨h.1, (h.2 1 (by norm_num)).1⟩

/-! ### Citation-density claim -/

/-- C9: for every text with at least one word and zero citation-pattern
matches, `_check_citation_patterns` reports `detected = true` (a citation
density of 0 is below the lower bound 0.5), hence
`detect_pattern_based_plagiarism` assigns such a text a `suspicion_score`
of at least 0.1 even when no other flag triggers. -/
theorem zero_citation_density_flags (text : String) (reference_texts : List String)
    (hcit : citation_count text = 0) (hw : 0 < (pySplit text).length) :
    (check_citation_patterns text).detected = true ∧
    1/10 ≤ (detect_pattern_based_plagiarism text reference_texts).suspicion_score := by
  have hdet : (check_citation_patterns text).detected = true := by
    simp only [check_citation_patterns, hcit]
    rw [if_pos hw]
    norm_num
  refine ⟨hdet, ?_⟩
  simp only [detect_pattern_based_plagiarism, hdet]
  rw [if_pos trivial]
  have h1 : (0:ℚ) ≤ (if (check_excessive_quotes text).detected = true
      then (3:ℚ)/10 else 0) := by split_ifs <;> norm_num
  have h2 : (0:ℚ) ≤ (if (check_repetitive_phrases (preprocess_text text)).detected = true
      then (4:ℚ)/10 else 0) := by split_ifs <;> norm_num
  have h3 : (0:ℚ) ≤ (if (check_unusual_formatting text).detected = true
      then (2:ℚ)/10 else 0) := by split_ifs <;> norm_num
  refine le_min (by linarith) (by norm_num)

/-- Witness for `zero_citation_density_flags` on `"hello world"`. -/
theorem zero_citation_density_flags_witness :
    citation_count "hello world" = 0 ∧ 0 < (pySplit "hello world").length ∧
    1/10 ≤ (detect_pattern_based_plagiarism "hello world" []).suspicion_score :=
  ⟨by decide, by decide,
    (zero_citation_density_flags "hello world" [] (by decide) (by decide)).2⟩

end Scan2Score
